import Mathlib

/-!
Verification of the league-monitor supervisory state machine and relay
protocol client, shallowly embedded from the C++ sources
(`src/cpp/src/controller/client_monitor.cpp` and
`src/cpp/src/shared/websocket_client_impl.cpp`).

Modelling conventions:
* machine time (`std::chrono::steady_clock` / `system_clock` milliseconds)
  is a `Nat`; the C++ code stores millisecond counts in `int64_t`, which
  never overflows in practice, and every comparison the monitor performs
  (`x - y < 30000`, `x - y > 30000`) evaluates identically over truncated
  `Nat` subtraction: a negative difference compares exactly like the `0`
  that `Nat` truncation yields;
* each OS query made during one monitor tick (process counts, the VGC
  service exit status, the result of a launch) is one field of a
  `TickInput` record: the environment sampled by that tick;
* observable side effects (killing processes, launching the client,
  invoking the registered callbacks, the state-dependent or throttled log
  lines) are emitted as `Action` values; unconditional informational log
  lines carry no state and are not modelled.
-/

namespace LeagueMonitor

/-- Observable side effects of one monitor check
    (`client_monitor.cpp`). -/
inductive Action where
  | killVgcProcess
  | launchClient
  | waitForClient
  | killGameProcesses
  | fireImmediateStart
  | killClientProcess
  | killRiotServices
  | fireRestart
  | logCooldownSkip
  | logProcessCount (n : Nat)
  | logWarnNoImmediateCallback
  | logWarnNoRestartCallback
  | logImmediateFlagReset
  | logVgcStillDetected
  deriving DecidableEq, Repr

/-- The mutable state of `ClientMonitor` (`client_monitor.h`): the last
restart/log timestamps in milliseconds, the last observed process count and
the two edge-trigger flags. -/
structure MonitorState where
  lastProcessCount : Nat
  immediateStartTriggered : Bool
  lastRestartTime : Nat
  lastLogTime : Nat
  lastVgcCheckTime : Nat
  vgcRestartTriggered : Bool
  deriving DecidableEq, Repr

/-- The monitor's state as the `ClientMonitor` constructor initialises it:
all timestamps zero, both edge flags down. -/
def initialMonitorState : MonitorState :=
  { lastProcessCount := 0, immediateStartTriggered := false,
    lastRestartTime := 0, lastLogTime := 0, lastVgcCheckTime := 0,
    vgcRestartTriggered := false }

/-- The environment one monitor tick samples: the wall clock and the results
of every OS query and launch attempt the four checks can make during the
tick. -/
structure TickInput where
  /-- `steady_clock::now()` in ms, one sample per tick. -/
  now : Nat
  /-- `ProcessUtils::getProcessPids(LeagueClient).size()`. -/
  clientPidCount : Nat
  /-- `ProcessUtils::isProcessRunning(LeagueClient)`. -/
  clientRunning : Bool
  /-- `ProcessUtils::isAnyProcessRunning(gameProcessNames)`. -/
  gameRunning : Bool
  /-- `ProcessUtils::getProcessCountByDescription("League of Legends")`. -/
  lolProcessCount : Nat
  /-- `ProcessUtils::checkVgcServiceExitCode185()`. -/
  vgcExit185 : Bool
  /-- `ProcessUtils::isProcessRunning(RiotClientServices)`. -/
  riotRunning : Bool
  /-- result of `LeagueUtils::launchLeagueClient()` were it called. -/
  launchOk : Bool
  /-- whether `onImmediateStart_` has been set. -/
  immediateStartCallbackSet : Bool
  /-- whether `onRestart_` has been set. -/
  restartCallbackSet : Bool
  deriving DecidableEq, Repr

/-- The restart cooldown `restartCooldown_` (30 s in ms). -/
def restartCooldown : Nat := 30000

/-- Model of `ClientMonitor::checkAndRestartClient`: if at least one LeagueClient
process exists, do nothing; if none and none is reported running, restart
unless the 30 s cooldown since the last successful relaunch has not yet
elapsed; a successful launch records the relaunch time and waits for the
process to appear. -/
def checkAndRestartClient (s : MonitorState) (i : TickInput) :
    MonitorState × List Action :=
  if 1 ≤ i.clientPidCount then (s, [])
  else if i.clientRunning then (s, [])
  else if i.now - s.lastRestartTime < restartCooldown then
    (s, [Action.logCooldownSkip])
  else if i.launchOk then
    ({ s with lastRestartTime := i.now },
     [Action.killVgcProcess, Action.launchClient, Action.waitForClient])
  else (s, [Action.killVgcProcess, Action.launchClient])

/-- Model of `ClientMonitor::checkAndKillGame`: if any process with a configured
game-process name is running, kill all of them; no state is read or
written. -/
def checkAndKillGame (s : MonitorState) (i : TickInput) :
    MonitorState × List Action :=
  if i.gameRunning then (s, [Action.killGameProcesses]) else (s, [])

/-- The logging stanza of `checkLeagueProcessCount`: log the count when it
changed, else at most once per 30 s. -/
def countLogStep (s : MonitorState) (i : TickInput) :
    MonitorState × List Action :=
  if i.lolProcessCount ≠ s.lastProcessCount then
    ({ s with lastProcessCount := i.lolProcessCount },
     [Action.logProcessCount i.lolProcessCount])
  else if s.lastLogTime = 0 ∨ 30000 < i.now - s.lastLogTime then
    ({ s with lastLogTime := i.now },
     [Action.logProcessCount i.lolProcessCount])
  else (s, [])

/-- The `processCount >= 8` stanza of `checkLeagueProcessCount`: on the
upward edge with the flag unarmed, fire the callback (if installed) and
arm the flag. -/
def countTrigStep (s : MonitorState) (i : TickInput) :
    MonitorState × List Action :=
  if 8 ≤ i.lolProcessCount then
    if s.immediateStartTriggered = false then
      if i.immediateStartCallbackSet then
        ({ s with immediateStartTriggered := true },
         [Action.fireImmediateStart])
      else (s, [Action.logWarnNoImmediateCallback])
    else (s, [])
  else (s, [])

/-- The `processCount < 8` stanza of `checkLeagueProcessCount`: disarm the
flag when the count drops below 8. -/
def countResetStep (s : MonitorState) (i : TickInput) :
    MonitorState × List Action :=
  if i.lolProcessCount < 8 ∧ s.immediateStartTriggered = true then
    ({ s with immediateStartTriggered := false },
     [Action.logImmediateFlagReset])
  else (s, [])

/-- Model of `ClientMonitor::checkLeagueProcessCount`: log the helper-derived count
on change or at most once per 30 s; fire the immediate-start callback on the
upward edge through 8 (arming the flag only when a callback is installed);
disarm the flag when the count drops below 8. -/
def checkLeagueProcessCount (s : MonitorState) (i : TickInput) :
    MonitorState × List Action :=
  let p1 := countLogStep s i
  let p2 := countTrigStep p1.1 i
  let p3 := countResetStep p2.1 i
  (p3.1, p1.2 ++ p2.2 ++ p3.2)

/-- The kill steps `checkVgcService` performs on first detection of the
sentinel: terminate VGC, then — if the client is reported running — kill the
client and, if running, RiotClientServices. -/
def vgcFirstDetectKills (i : TickInput) : List Action :=
  Action.killVgcProcess ::
    (if i.clientRunning then
      Action.killClientProcess ::
        (if i.riotRunning then [Action.killRiotServices] else [])
    else [])

/-- Model of `ClientMonitor::checkVgcService`: on first detection of the VGC exit
code 185 sentinel (flag unarmed) arm the flag, run the kill steps, and —
unless within the restart cooldown — relaunch, wait for the process, and
invoke the restart callback; while the sentinel persists with the flag
armed, only log, at most once per 30 s; when the sentinel clears, disarm
the flag. -/
def checkVgcService (s : MonitorState) (i : TickInput) :
    MonitorState × List Action :=
  if i.vgcExit185 then
    if s.vgcRestartTriggered = false then
      let s1 := { s with vgcRestartTriggered := true }
      if i.now - s1.lastRestartTime < restartCooldown then
        (s1, vgcFirstDetectKills i ++ [Action.logCooldownSkip])
      else if i.launchOk then
        ({ s1 with lastRestartTime := i.now },
         vgcFirstDetectKills i ++
           [Action.launchClient, Action.waitForClient] ++
           (if i.restartCallbackSet then [Action.fireRestart]
            else [Action.logWarnNoRestartCallback]))
      else (s1, vgcFirstDetectKills i ++ [Action.launchClient])
    else
      if s.lastVgcCheckTime = 0 ∨ 30000 < i.now - s.lastVgcCheckTime then
        ({ s with lastVgcCheckTime := i.now }, [Action.logVgcStillDetected])
      else (s, [])
  else
    if s.vgcRestartTriggered = true then
      ({ s with vgcRestartTriggered := false }, [])
    else (s, [])

/-- One tick of `ClientMonitor::monitorLoop`: the four checks run
sequentially on the tick thread. -/
def monitorTick (s : MonitorState) (i : TickInput) :
    MonitorState × List Action :=
  let p1 := checkAndRestartClient s i
  let p2 := checkAndKillGame p1.1 i
  let p3 := checkLeagueProcessCount p2.1 i
  let p4 := checkVgcService p3.1 i
  (p4.1, p1.2 ++ p2.2 ++ p3.2 ++ p4.2)

/-- Run the monitor over a list of tick environments, collecting each
tick's action list. -/
def runMonitor (s : MonitorState) : List TickInput → MonitorState × List (List Action)
  | [] => (s, [])
  | i :: rest =>
    let p := monitorTick s i
    let q := runMonitor p.1 rest
    (q.1, p.2 :: q.2)

/-- The clock times at which a run of the monitor performed a successful
client relaunch (the ticks whose step updated `lastRestartTime_`). -/
def relaunchTimes (s : MonitorState) : List TickInput → List Nat
  | [] => []
  | i :: rest =>
    let s1 := (monitorTick s i).1
    if s1.lastRestartTime = s.lastRestartTime then relaunchTimes s1 rest
    else i.now :: relaunchTimes s1 rest

/-- Run only the instance-count threshold check over a list of tick
environments, recording for each tick whether the immediate-start trigger
fired. -/
def runCountFires (s : MonitorState) : List TickInput → List Bool
  | [] => []
  | i :: rest =>
    let p := checkLeagueProcessCount s i
    decide (Action.fireImmediateStart ∈ p.2) :: runCountFires p.1 rest

/-- Run only the watchdog-failure check over a list of tick environments,
collecting each tick's action list. -/
def runVgc (s : MonitorState) : List TickInput → MonitorState × List (List Action)
  | [] => (s, [])
  | i :: rest =>
    let p := checkVgcService s i
    let q := runVgc p.1 rest
    (q.1, p.2 :: q.2)

/-- A tick environment that fixes everything except the observed instance
count: used to feed the instance-count check a bare sequence of counts. -/
def mkCountInput (c : Nat) : TickInput :=
  { now := 0, clientPidCount := 1, clientRunning := true, gameRunning := false,
    lolProcessCount := c, vgcExit185 := false, riotRunning := false,
    launchOk := true, immediateStartCallbackSet := true,
    restartCallbackSet := true }

/-- A tick environment for the watchdog-failure check: the sentinel flag and
the clock vary, every process is reported running, launches succeed and the
callbacks are installed. -/
def mkVgcInput (t : Nat) (b : Bool) : TickInput :=
  { now := t, clientPidCount := 1, clientRunning := true, gameRunning := false,
    lolProcessCount := 0, vgcExit185 := b, riotRunning := true,
    launchOk := true, immediateStartCallbackSet := true,
    restartCallbackSet := true }

/-- The full watchdog restart sequence as it appears in a tick's action
list when the client and RiotClientServices are running, the launch
succeeds and the restart callback is installed. -/
def vgcRestartSequence : List Action :=
  [Action.killVgcProcess, Action.killClientProcess, Action.killRiotServices,
   Action.launchClient, Action.waitForClient, Action.fireRestart]

/-- Taken from the claim's words (spec-side reference definition): the
immediate-start trigger fires exactly at upward crossings of 8 — at a count
`≥ 8` whose predecessor was below 8 (the first count counting as having a
below-8 predecessor). -/
def upwardCrossingFires (prevBelow : Bool) : List Nat → List Bool
  | [] => []
  | c :: rest =>
      (prevBelow && decide (8 ≤ c)) :: upwardCrossingFires (decide (c < 8)) rest

/-- The `Role` enum from `shared/types.h`. -/
inductive Role where
  | controller
  | follower
  deriving DecidableEq, Repr

/-- A primitive JSON value carried in a message field. -/
inductive JVal where
  | str (s : String)
  | num (n : Nat)
  | bool (b : Bool)
  deriving DecidableEq, Repr

/-- A flat JSON object, as the wire messages of this protocol all are:
an association list of field name to value.  The nlohmann string
round-trip (`dump`/`parse`) is the identity on this object layer. -/
abbrev Json : Type := List (String × JVal)

/-- Model of `obj[key] = value` on a JSON object: overwrite the field in place if
present, append it otherwise. -/
def jset (m : Json) (k : String) (v : JVal) : Json :=
  if (List.any m fun p => p.1 == k) then
    List.map (fun p => if p.1 == k then (k, v) else p) m
  else m ++ [(k, v)]

/-- Model of `message.update(data)`: set every field of `data` on `m`. -/
def jupdate (m : Json) (d : Json) : Json :=
  List.foldl (fun acc p => jset acc p.1 p.2) m d

/-- Field lookup on a JSON object. -/
def jget (m : Json) (k : String) : Option JVal :=
  Option.map Prod.snd (List.find? (fun p => p.1 == k) m)

/-- Model of `msg.value(key, default)` for string fields. -/
def jgetStr (m : Json) (k : String) (dflt : String) : String :=
  match jget m k with
  | some (JVal.str s) => s
  | _ => dflt

/-- The role string of `WebSocketClientImpl::sendMessage`. -/
def roleString : Role → String
  | Role.controller => "controller"
  | Role.follower => "follower"

/-- Model of `WebSocketClientImpl::sendMessage`'s envelope construction: set `type`
and `timestamp`, merge the payload if it is non-empty, add `sessionToken`
when a non-empty token is known, and set `role`. -/
def buildMessage (ts : Nat) (role : Role) (tok : String) (type : String)
    (data : Json) : Json :=
  let m := jset (jset [] "type" (JVal.str type)) "timestamp" (JVal.num ts)
  let m := if data = [] then m else jupdate m data
  let m := if tok = "" then m else jset m "sessionToken" (JVal.str tok)
  jset m "role" (JVal.str (roleString role))

/-- Model of `WebSocketClientImpl::joinSession`: a non-empty token is recorded as
the session token and sent in the JOIN payload; with no token the JOIN is
sent with an empty payload (auto-join by address).  Returns the new stored
token together with the message. -/
def joinSessionMsg (ts : Nat) (role : Role) (token curTok : String) :
    String × Json :=
  if token = "" then (curTok, buildMessage ts role curTok "JOIN" [])
  else (token, buildMessage ts role token "JOIN" [("sessionToken", JVal.str token)])

/-- An abstract message envelope: the fields the client's messages can
carry.  `sessionToken`, `clientRunning` and `processCount` are optional;
the source represents an absent token as the empty string and never sends
`some ""`. -/
structure Envelope where
  type : String
  timestamp : Nat
  sessionToken : Option String
  role : Role
  clientRunning : Option Bool
  processCount : Option Nat
  deriving DecidableEq, Repr

/-- The payload fields of an envelope, in the order the client writes
them. -/
def payloadJson (e : Envelope) : Json :=
  (match e.clientRunning with
   | some b => [("clientRunning", JVal.bool b)]
   | none => []) ++
  (match e.processCount with
   | some n => [("processCount", JVal.num n)]
   | none => [])

/-- Encode an envelope to its wire object exactly as
`WebSocketClientImpl::sendMessage` constructs it. -/
def encodeEnv (e : Envelope) : Json :=
  buildMessage e.timestamp e.role
    (match e.sessionToken with | some t => t | none => "") e.type (payloadJson e)

/-- Decode the `role` field as the protocol writes it. -/
def decodeRole : Option JVal → Option Role
  | some (JVal.str "controller") => some Role.controller
  | some (JVal.str "follower") => some Role.follower
  | _ => none

/-- Decode a wire object back to an envelope, reading each field the way
`WebSocketClientImpl::handleMessage` does (`value`/`contains`/`get`):
`none` when the mandatory fields are missing or ill-typed. -/
def decodeEnv (m : Json) : Option Envelope :=
  match jget m "type", jget m "timestamp", decodeRole (jget m "role") with
  | some (JVal.str ty), some (JVal.num ts), some r =>
    some { type := ty, timestamp := ts, role := r,
           sessionToken :=
             (match jget m "sessionToken" with
              | some (JVal.str t) => some t
              | _ => none),
           clientRunning :=
             (match jget m "clientRunning" with
              | some (JVal.bool b) => some b
              | _ => none),
           processCount :=
             (match jget m "processCount" with
              | some (JVal.num n) => some n
              | _ => none) }
  | _, _, _ => none

/-- The outbound-envelope obligation of the claim: the wire object carries
its `type`, `timestamp` and `role` fields, and carries `sessionToken`
exactly when a non-empty token is known. -/
def envelopeFieldsOk (type : String) (ts : Nat) (role : Role) (tok : String)
    (m : Json) : Prop :=
  jget m "type" = some (JVal.str type) ∧
  jget m "timestamp" = some (JVal.num ts) ∧
  jget m "role" = some (JVal.str (roleString role)) ∧
  jget m "sessionToken" = (if tok = "" then none else some (JVal.str tok))

/-- The connection-facing state of `WebSocketClientImpl` read by `send` and
`handleMessage`: the stored session token (empty string = unknown), the
`connected_` flag and whether `connectionHandle_` is live (not expired). -/
structure ClientState where
  sessionToken : String
  connected : Bool
  handleValid : Bool
  deriving DecidableEq, Repr

/-- Which of the four message handlers have been registered. -/
structure Handlers where
  statusSet : Bool
  immediateStartSet : Bool
  clientRestartedSet : Bool
  gameRunningRestartRequestSet : Bool
  deriving DecidableEq, Repr

/-- Observable effects of the protocol client's message paths. -/
inductive ClientAction where
  | transmit (j : Json)
  | invokeImmediateStart
  | invokeClientRestarted
  | invokeGameRunningRestartRequest
  | logSuccess
  | logError
  deriving DecidableEq, Repr

/-- Model of `WebSocketClientImpl::send`: while disconnected or with an expired
connection handle it returns at once, transmitting nothing and changing
nothing; otherwise it serialises and transmits the object. -/
def send (s : ClientState) (j : Json) : ClientState × List ClientAction :=
  if s.connected = false ∨ s.handleValid = false then (s, [])
  else (s, [ClientAction.transmit j])

/-- Model of `WebSocketClientImpl::handleMessage`: dispatch one parsed inbound
object by its `type` field.  `st` is what the status provider would
return, `ts` the clock used for any reply envelope. -/
def handleMessage (h : Handlers) (role : Role) (st : Bool × Nat) (ts : Nat)
    (s : ClientState) (m : Json) : ClientState × List ClientAction :=
  let type := jgetStr m "type" ""
  if type = "STATUS_REQUEST" then
    if h.statusSet then
      (s, (send s (buildMessage ts role s.sessionToken "STATUS_UPDATE"
            [("clientRunning", JVal.bool st.1),
             ("processCount", JVal.num st.2)])).2)
    else (s, [])
  else if type = "IMMEDIATE_START" then
    (s, if h.immediateStartSet then [ClientAction.invokeImmediateStart] else [])
  else if type = "CLIENT_RESTARTED" then
    (s, if h.clientRestartedSet then [ClientAction.invokeClientRestarted] else [])
  else if type = "GAME_RUNNING_RESTART_REQUEST" then
    (s, if h.gameRunningRestartRequestSet then
          [ClientAction.invokeGameRunningRestartRequest]
        else [])
  else if type = "SESSION_CREATED" then
    match jget m "sessionToken" with
    | some (JVal.str tok) => ({ s with sessionToken := tok }, [ClientAction.logSuccess])
    | some _ => (s, [ClientAction.logError])
    | none => (s, [])
  else if type = "SESSION_JOINED" then
    (s, ClientAction.logSuccess ::
      (if role = Role.follower then
        (send s (buildMessage ts role s.sessionToken "STATUS_REQUEST" [])).2
       else []))
  else (s, [])

/-- The reconnection-relevant state of `WebSocketClientImpl`: the stored
token, the `connected_` and `shouldReconnect_` atomics, whether the worker
thread is joinable and whether the connection handle is live. -/
structure WsState where
  sessionToken : String
  connected : Bool
  shouldReconnect : Bool
  workerJoinable : Bool
  handleValid : Bool
  deriving DecidableEq, Repr

/-- The `WsState` at construction: `shouldReconnect_{true}`, nothing
connected, no worker yet. -/
def wsInit : WsState :=
  { sessionToken := "", connected := false, shouldReconnect := true,
    workerJoinable := false, handleValid := false }

/-- The externally driven events of the connection lifecycle: a `connect`
call (with the token argument and whether `get_connection` succeeds), the
websocket open/close/fail callbacks, and an explicit `disconnect` call. -/
inductive WsEvent where
  | connectCall (tok : String) (connOk : Bool)
  | openEvt
  | closeEvt
  | failEvt
  | disconnectCall
  deriving DecidableEq, Repr

/-- Observable effects of the connection lifecycle. -/
inductive WsAction where
  | joinWithToken (tok : String)
  | joinAuto
  | backoffWait
  | reconnectAttempt (tok : String)
  | closeConnection
  deriving DecidableEq, Repr

/-- Model of `WebSocketClientImpl::scheduleReconnect`: bail out at once unless
`shouldReconnect_`; otherwise sleep the 5 s backoff, then re-attempt
`connect` with the stored token if still wanted and not connected. -/
def scheduleReconnect (s : WsState) : List WsAction :=
  if s.shouldReconnect = false then []
  else if s.connected = false then
    [WsAction.backoffWait, WsAction.reconnectAttempt s.sessionToken]
  else [WsAction.backoffWait]

/-- Model of `WebSocketClientImpl::connect`: record a non-empty token, then (when
`get_connection` succeeds) start the asynchronous connection and — if no
worker thread runs yet — enable reconnection and start the worker. -/
def connectStep (s : WsState) (tok : String) (connOk : Bool) :
    WsState × List WsAction :=
  let s := if tok = "" then s else { s with sessionToken := tok }
  if connOk = false then (s, [])
  else if s.workerJoinable = false then
    ({ s with shouldReconnect := true, workerJoinable := true }, [])
  else (s, [])

/-- The open handler installed in the constructor: mark connected, clear
`shouldReconnect_`, store the handle, and JOIN with the stored token (or
auto-join when none is known). -/
def openStep (s : WsState) : WsState × List WsAction :=
  let s := { s with connected := true, shouldReconnect := false, handleValid := true }
  if s.sessionToken = "" then (s, [WsAction.joinAuto])
  else (s, [WsAction.joinWithToken s.sessionToken])

/-- The close handler: mark disconnected, drop the handle, and run
`scheduleReconnect`.  (A reconnect attempt's own `connect` call leaves this
state unchanged: the token it passes is the stored one and the worker is
already running.) -/
def closeStep (s : WsState) : WsState × List WsAction :=
  let s := { s with connected := false, handleValid := false }
  (s, scheduleReconnect s)

/-- The fail handler: identical state effect to the close handler. -/
def failStep (s : WsState) : WsState × List WsAction :=
  closeStep s

/-- Model of `WebSocketClientImpl::disconnect`: clear `shouldReconnect_`, close any
live connection, join the worker thread, mark disconnected. -/
def disconnectStep (s : WsState) : WsState × List WsAction :=
  let s1 := { s with shouldReconnect := false }
  let p :=
    if s1.handleValid then
      ({ s1 with handleValid := false }, [WsAction.closeConnection])
    else (s1, [])
  ({ p.1 with workerJoinable := false, connected := false }, p.2)

/-- One lifecycle event. -/
def wsStep (s : WsState) : WsEvent → WsState × List WsAction
  | WsEvent.connectCall tok connOk => connectStep s tok connOk
  | WsEvent.openEvt => openStep s
  | WsEvent.closeEvt => closeStep s
  | WsEvent.failEvt => failStep s
  | WsEvent.disconnectCall => disconnectStep s

/-- Run a sequence of lifecycle events, collecting all actions in order. -/
def wsRun (s : WsState) : List WsEvent → WsState × List WsAction
  | [] => (s, [])
  | e :: rest =>
    let p := wsStep s e
    let q := wsRun p.1 rest
    (q.1, p.2 ++ q.2)

/-! ## Theorems -/

/-- Helper: `checkAndRestartClient` never kills game processes. -/
theorem killGame_not_mem_restart (s : MonitorState) (i : TickInput) :
    Action.killGameProcesses ∉ (checkAndRestartClient s i).2 := by
  unfold checkAndRestartClient
  split_ifs <;> simp

/-- Helper: `countLogStep` never kills game processes. -/
theorem killGame_not_mem_countLog (s : MonitorState) (i : TickInput) :
    Action.killGameProcesses ∉ (countLogStep s i).2 := by
  unfold countLogStep
  split_ifs <;> simp

/-- Helper: `countTrigStep` never kills game processes. -/
theorem killGame_not_mem_countTrig (s : MonitorState) (i : TickInput) :
    Action.killGameProcesses ∉ (countTrigStep s i).2 := by
  unfold countTrigStep
  split_ifs <;> simp

/-- Helper: `countResetStep` never kills game processes. -/
theorem killGame_not_mem_countReset (s : MonitorState) (i : TickInput) :
    Action.killGameProcesses ∉ (countResetStep s i).2 := by
  unfold countResetStep
  split_ifs <;> simp

/-- Helper: `checkLeagueProcessCount` never kills game processes. -/
theorem killGame_not_mem_count (s : MonitorState) (i : TickInput) :
    Action.killGameProcesses ∉ (checkLeagueProcessCount s i).2 := by
  simp [checkLeagueProcessCount, List.mem_append, killGame_not_mem_countLog,
    killGame_not_mem_countTrig, killGame_not_mem_countReset]

/-- Helper: `checkVgcService` never kills game processes. -/
theorem killGame_not_mem_vgc (s : MonitorState) (i : TickInput) :
    Action.killGameProcesses ∉ (checkVgcService s i).2 := by
  unfold checkVgcService vgcFirstDetectKills
  split_ifs <;> simp <;> split_ifs <;> simp

/-- C5: on every monitor tick, the managed-game kill action is emitted
exactly when a process matching a game-process alias was detected,
whatever the monitor's state (cooldown timers, edge flags) is: the kill is
unconditional and no other check performs it. -/
theorem game_kill_unconditional_claim (s : MonitorState) (i : TickInput) :
    Action.killGameProcesses ∈ (monitorTick s i).2 ↔ i.gameRunning = true := by
  cases hg : i.gameRunning <;>
    simp [monitorTick, checkAndKillGame, hg, killGame_not_mem_restart,
      killGame_not_mem_count, killGame_not_mem_vgc]

/-- C9: whenever at least one primary-process (LeagueClient) instance is
observed, the liveness check does nothing at all: no launch, no kill, no
state change. -/
theorem client_alive_noop_claim (s : MonitorState) (i : TickInput)
    (h : 1 ≤ i.clientPidCount) : checkAndRestartClient s i = (s, []) := by
  simp [checkAndRestartClient, h]

/-- Witness for C9 at a concrete state and tick environment. -/
theorem client_alive_noop_witness :
    checkAndRestartClient initialMonitorState (mkCountInput 3) =
      (initialMonitorState, []) :=
  client_alive_noop_claim initialMonitorState (mkCountInput 3) (by decide)

/-- C7: a `send` attempted while the client is disconnected transmits
nothing, raises nothing and leaves the client state unchanged. -/
theorem send_disconnected_noop_claim (s : ClientState) (j : Json)
    (h : s.connected = false) : send s j = (s, []) := by
  simp [send, h]

/-- Witness for C7 at a concrete state and payload. -/
theorem send_disconnected_noop_witness :
    send { sessionToken := "tok", connected := false, handleValid := true }
        [("type", JVal.str "STATUS_REQUEST")] =
      ({ sessionToken := "tok", connected := false, handleValid := true }, []) :=
  send_disconnected_noop_claim _ _ rfl

/-- C3 (recorded against the code): after a successful `connect` and open,
an unexpected close produces **no** reconnect attempt and no backoff wait —
the open handler set `shouldReconnect_` to `false`, so the close handler's
`scheduleReconnect` returns immediately.  The only action of the whole
trace is the JOIN issued on open. -/
theorem unexpected_close_no_reconnect :
    wsRun wsInit [WsEvent.connectCall "tok123" true, WsEvent.openEvt,
        WsEvent.closeEvt] =
      ({ sessionToken := "tok123", connected := false, shouldReconnect := false,
         workerJoinable := true, handleValid := false },
       [WsAction.joinWithToken "tok123"]) := by
  decide

/-- C6 counterexample: an inbound `IMMEDIATE_START` frame dispatched with
no handler registered produces no action at all — in particular no warning
is logged, contrary to the claim's "silently ignored with a warning
logged". -/
theorem dispatch_no_warning_counterexample :
    handleMessage
      { statusSet := false, immediateStartSet := false,
        clientRestartedSet := false, gameRunningRestartRequestSet := false }
      Role.controller (false, 0) 0
      { sessionToken := "", connected := true, handleValid := true }
      [("type", JVal.str "IMMEDIATE_START")] =
    ({ sessionToken := "", connected := true, handleValid := true }, []) := by
  decide

/-- Field lookup distributes over cons. -/
theorem jget_cons (p : String × JVal) (m : Json) (k : String) :
    jget (p :: m) k = if p.1 == k then some p.2 else jget m k := by
  unfold jget
  rw [List.find?_cons]
  cases h : (p.1 == k) <;> simp [h]

/-- Looking up the overwritten key after an in-place `jset` map. -/
theorem jget_map_set (k : String) (v : JVal) :
    ∀ m : Json, jget (List.map (fun p => if p.1 == k then (k, v) else p) m) k
      = if List.any m (fun p => p.1 == k) then some v else none := by
  intro m
  induction m with
  | nil => rfl
  | cons p m ih =>
    simp only [List.map_cons, List.any_cons]
    by_cases h : (p.1 == k) = true
    · rw [if_pos h, jget_cons]
      simp [h]
    · have h' : (p.1 == k) = false := by simpa using h
      rw [if_neg h, jget_cons, if_neg (by simp [h]), ih]
      simp only [h', Bool.false_or]

/-- Looking up a different key after an in-place `jset` map. -/
theorem jget_map_other (k k' : String) (v : JVal) (hkk : (k == k') = false) :
    ∀ m : Json, jget (List.map (fun p => if p.1 == k then (k, v) else p) m) k'
      = jget m k' := by
  intro m
  induction m with
  | nil => rfl
  | cons p m ih =>
    simp only [List.map_cons]
    by_cases hp : (p.1 == k) = true
    · have hp' : p.1 = k := by simpa using hp
      rw [if_pos hp, jget_cons, jget_cons, if_neg (by simp [hkk]),
        if_neg (by simp [hp', hkk])]
      exact ih
    · rw [if_neg hp, jget_cons, jget_cons]
      by_cases hq : (p.1 == k') = true
      · rw [if_pos hq, if_pos hq]
      · rw [if_neg (by simp [hq]), if_neg (by simp [hq])]
        exact ih

/-- Looking up a freshly appended key. -/
theorem jget_append_new (k : String) (v : JVal) :
    ∀ m : Json, List.any m (fun p => p.1 == k) = false →
      jget (m ++ [(k, v)]) k = some v := by
  intro m
  induction m with
  | nil =>
    intro _
    rw [List.nil_append, jget_cons]
    simp
  | cons p m ih =>
    intro h
    simp only [List.any_cons, Bool.or_eq_false_iff] at h
    rw [List.cons_append, jget_cons, if_neg (by simp [h.1])]
    exact ih h.2

/-- Looking up a different key past an appended field. -/
theorem jget_append_other (k k' : String) (v : JVal) (hkk : (k == k') = false) :
    ∀ m : Json, jget (m ++ [(k, v)]) k' = jget m k' := by
  intro m
  induction m with
  | nil =>
    rw [List.nil_append, jget_cons, if_neg (by simp [hkk])]
  | cons p m ih =>
    rw [List.cons_append, jget_cons, jget_cons]
    by_cases hq : (p.1 == k') = true
    · rw [if_pos hq, if_pos hq]
    · rw [if_neg (by simp [hq]), if_neg (by simp [hq])]
      exact ih

/-- Lookup of the key just set by `jset` yields the set value. -/
theorem jget_jset_self (m : Json) (k : String) (v : JVal) :
    jget (jset m k v) k = some v := by
  unfold jset
  by_cases h : List.any m (fun p => p.1 == k) = true
  · rw [if_pos h, jget_map_set, if_pos h]
  · rw [Bool.not_eq_true] at h
    rw [if_neg (by simp [h]), jget_append_new k v m h]

/-- Lookup of every other key is unchanged by `jset`. -/
theorem jget_jset_other (m : Json) (k k' : String) (v : JVal)
    (hkk : (k == k') = false) : jget (jset m k v) k' = jget m k' := by
  unfold jset
  by_cases h : List.any m (fun p => p.1 == k) = true
  · rw [if_pos h, jget_map_other k k' v hkk]
  · rw [if_neg h, jget_append_other k k' v hkk]

/-- C6 (amended): for each of the three command frame types, the dispatcher
invokes the corresponding registered zero-argument handler if one is set;
if no handler is registered the frame is silently ignored (without any
warning); in both cases the connection state is unaffected. -/
theorem dispatch_handlers_claim (h : Handlers) (role : Role) (st : Bool × Nat)
    (ts : Nat) (s : ClientState) (rest : Json) :
    handleMessage h role st ts s (("type", JVal.str "IMMEDIATE_START") :: rest) =
      (s, if h.immediateStartSet then [ClientAction.invokeImmediateStart] else []) ∧
    handleMessage h role st ts s (("type", JVal.str "CLIENT_RESTARTED") :: rest) =
      (s, if h.clientRestartedSet then [ClientAction.invokeClientRestarted] else []) ∧
    handleMessage h role st ts s
        (("type", JVal.str "GAME_RUNNING_RESTART_REQUEST") :: rest) =
      (s, if h.gameRunningRestartRequestSet then
            [ClientAction.invokeGameRunningRestartRequest]
          else []) := by
  refine ⟨?_, ?_, ?_⟩ <;> simp [handleMessage, jgetStr, jget]

/-- The logging stanza leaves the immediate-start flag unchanged. -/
theorem countLog_flag (s : MonitorState) (i : TickInput) :
    (countLogStep s i).1.immediateStartTriggered = s.immediateStartTriggered := by
  unfold countLogStep
  split_ifs <;> rfl

/-- The logging stanza never fires the immediate-start trigger. -/
theorem countLog_noFire (s : MonitorState) (i : TickInput) :
    Action.fireImmediateStart ∉ (countLogStep s i).2 := by
  unfold countLogStep
  split_ifs <;> simp

/-- With a callback installed, the flag after one instance-count check
equals whether the observed count was at least 8. -/
theorem countCheck_flag (s : MonitorState) (i : TickInput)
    (hcb : i.immediateStartCallbackSet = true) :
    (checkLeagueProcessCount s i).1.immediateStartTriggered
      = decide (8 ≤ i.lolProcessCount) := by
  unfold checkLeagueProcessCount countTrigStep countResetStep
  by_cases h8 : 8 ≤ i.lolProcessCount
  · by_cases hf : (countLogStep s i).1.immediateStartTriggered = false
    · simp [h8, hf, hcb, Nat.not_lt.mpr h8]
    · simp [h8, hf, hcb, Nat.not_lt.mpr h8]
  · have h8' : i.lolProcessCount < 8 := Nat.lt_of_not_le h8
    by_cases hf : (countLogStep s i).1.immediateStartTriggered = true
    · simp [h8, h8', hf]
    · simp only [Bool.not_eq_true] at hf
      simp [h8, h8', hf]

/-- With a callback installed, one instance-count check fires exactly when
the count is at least 8 and the flag was unarmed. -/
theorem countCheck_fire (s : MonitorState) (i : TickInput)
    (hcb : i.immediateStartCallbackSet = true) :
    (Action.fireImmediateStart ∈ (checkLeagueProcessCount s i).2)
      ↔ (8 ≤ i.lolProcessCount ∧ s.immediateStartTriggered = false) := by
  unfold checkLeagueProcessCount countTrigStep countResetStep
  have hlf := countLog_flag s i
  have hln := countLog_noFire s i
  rw [← hlf]
  by_cases h8 : 8 ≤ i.lolProcessCount
  · by_cases hf : (countLogStep s i).1.immediateStartTriggered = false
    · simp [h8, hf, hcb, Nat.not_lt.mpr h8, hln]
    · simp only [Bool.not_eq_false] at hf
      simp [h8, hf, hcb, Nat.not_lt.mpr h8, hln]
  · have h8' : i.lolProcessCount < 8 := Nat.lt_of_not_le h8
    by_cases hf : (countLogStep s i).1.immediateStartTriggered = true
    · simp [h8, h8', hf, hln]
    · simp only [Bool.not_eq_true] at hf
      simp [h8, h8', hf, hln]

/-- Helper for C1, by induction over the count sequence: the fire pattern of
the instance-count check equals the spec-side upward-crossing pattern. -/
theorem runCountFires_eq (counts : List Nat) : ∀ s : MonitorState,
    runCountFires s (counts.map mkCountInput)
      = upwardCrossingFires (!s.immediateStartTriggered) counts := by
  induction counts with
  | nil => intro s; rfl
  | cons c rest ih =>
    intro s
    have hcb : (mkCountInput c).immediateStartCallbackSet = true := rfl
    have hc : (mkCountInput c).lolProcessCount = c := rfl
    simp only [List.map_cons, runCountFires, upwardCrossingFires]
    refine congrArg₂ List.cons ?_ ?_
    · have hiff := countCheck_fire s (mkCountInput c) hcb
      rw [hc] at hiff
      calc decide (Action.fireImmediateStart ∈ (checkLeagueProcessCount s (mkCountInput c)).2)
          = decide (8 ≤ c ∧ s.immediateStartTriggered = false) := by
            rw [decide_eq_decide]; exact hiff
        _ = (decide (8 ≤ c) && decide (s.immediateStartTriggered = false)) := by
            rw [Bool.decide_and]
        _ = (!s.immediateStartTriggered && decide (8 ≤ c)) := by
            cases hs : s.immediateStartTriggered <;> simp [Bool.and_comm]
    · rw [ih ((checkLeagueProcessCount s (mkCountInput c)).1)]
      have hfl := countCheck_flag s (mkCountInput c) hcb
      rw [hc] at hfl
      rw [hfl]
      congr 1
      by_cases h8 : 8 ≤ c
      · simp [h8, Nat.not_lt.mpr h8]
      · simp [h8, Nat.lt_of_not_le h8]

/-- C1: for every sequence of observed instance counts, the immediate-start
trigger fires exactly once per upward crossing of 8 — when a count first
reaches 8 with the edge flag unarmed — and again only after a count below 8
has disarmed the flag; in particular, on the counts [3, 8, 9, 8, 5, 10] it
fires at the first 8 and at the 10, nowhere else. -/
theorem immediate_start_edge_claim :
    (∀ counts : List Nat,
      runCountFires initialMonitorState (counts.map mkCountInput)
        = upwardCrossingFires true counts) ∧
    runCountFires initialMonitorState ([3, 8, 9, 8, 5, 10].map mkCountInput)
      = [false, true, false, false, false, true] := by
  constructor
  · intro counts
    exact runCountFires_eq counts initialMonitorState
  · decide

/-- One liveness check leaves `lastRestartTime_` unchanged or sets it to the
tick clock with the full cooldown elapsed since the previous relaunch. -/
theorem restart_lrt (s : MonitorState) (i : TickInput) :
    (checkAndRestartClient s i).1.lastRestartTime = s.lastRestartTime ∨
      ((checkAndRestartClient s i).1.lastRestartTime = i.now ∧
        s.lastRestartTime + restartCooldown ≤ i.now) := by
  unfold checkAndRestartClient
  split_ifs with h1 h2 h3 h4
  · exact Or.inl rfl
  · exact Or.inl rfl
  · exact Or.inl rfl
  · refine Or.inr ⟨rfl, ?_⟩
    simp only [restartCooldown] at h3 ⊢
    omega
  · exact Or.inl rfl

/-- The game-kill check reads and writes no monitor state. -/
theorem killGame_state (s : MonitorState) (i : TickInput) :
    (checkAndKillGame s i).1 = s := by
  unfold checkAndKillGame
  split_ifs <;> rfl

/-- The logging stanza does not touch `lastRestartTime_`. -/
theorem countLog_lrt (s : MonitorState) (i : TickInput) :
    (countLogStep s i).1.lastRestartTime = s.lastRestartTime := by
  unfold countLogStep
  split_ifs <;> rfl

/-- The trigger stanza does not touch `lastRestartTime_`. -/
theorem countTrig_lrt (s : MonitorState) (i : TickInput) :
    (countTrigStep s i).1.lastRestartTime = s.lastRestartTime := by
  unfold countTrigStep
  split_ifs <;> rfl

/-- The reset stanza does not touch `lastRestartTime_`. -/
theorem countReset_lrt (s : MonitorState) (i : TickInput) :
    (countResetStep s i).1.lastRestartTime = s.lastRestartTime := by
  unfold countResetStep
  split_ifs <;> rfl

/-- The instance-count check does not touch `lastRestartTime_`. -/
theorem count_lrt (s : MonitorState) (i : TickInput) :
    (checkLeagueProcessCount s i).1.lastRestartTime = s.lastRestartTime := by
  unfold checkLeagueProcessCount
  rw [countReset_lrt, countTrig_lrt, countLog_lrt]

/-- One watchdog check leaves `lastRestartTime_` unchanged or sets it to the
tick clock with the full cooldown elapsed since the previous relaunch. -/
theorem vgc_lrt (s : MonitorState) (i : TickInput) :
    (checkVgcService s i).1.lastRestartTime = s.lastRestartTime ∨
      ((checkVgcService s i).1.lastRestartTime = i.now ∧
        s.lastRestartTime + restartCooldown ≤ i.now) := by
  simp only [checkVgcService]
  split_ifs with h1 h2 h3 h4 <;>
    first
      | exact Or.inl rfl
      | (refine Or.inr ⟨rfl, ?_⟩
         have h3' : ¬ i.now - s.lastRestartTime < 30000 := by
           simpa [restartCooldown] using h3
         simp only [restartCooldown]
         omega)

/-- One full monitor tick leaves `lastRestartTime_` unchanged or sets it to
the tick clock with the full cooldown elapsed since the previous relaunch. -/
theorem tick_lrt (s : MonitorState) (i : TickInput) :
    (monitorTick s i).1.lastRestartTime = s.lastRestartTime ∨
      ((monitorTick s i).1.lastRestartTime = i.now ∧
        s.lastRestartTime + restartCooldown ≤ i.now) := by
  simp only [monitorTick]
  have h1 := restart_lrt s i
  have hkc : (checkLeagueProcessCount (checkAndKillGame (checkAndRestartClient s i).1 i).1
      i).1.lastRestartTime = (checkAndRestartClient s i).1.lastRestartTime := by
    rw [count_lrt, killGame_state]
  have h4 := vgc_lrt
    (checkLeagueProcessCount (checkAndKillGame (checkAndRestartClient s i).1 i).1 i).1 i
  rw [hkc] at h4
  rcases h1 with h1 | ⟨h1a, h1b⟩ <;> rcases h4 with h4 | ⟨h4a, h4b⟩
  · left
    rw [h4, h1]
  · right
    rw [h1] at h4b
    exact ⟨h4a, h4b⟩
  · right
    rw [h4, h1a]
    exact ⟨rfl, h1b⟩
  · rw [h1a] at h4b
    simp only [restartCooldown] at h4b
    exfalso
    omega

/-- The watchdog kill steps never launch the client. -/
theorem launch_not_mem_fdk (i : TickInput) :
    Action.launchClient ∉ vgcFirstDetectKills i := by
  unfold vgcFirstDetectKills
  split_ifs <;> simp

/-- The game-kill check never launches the client. -/
theorem launch_not_mem_killGame (s : MonitorState) (i : TickInput) :
    Action.launchClient ∉ (checkAndKillGame s i).2 := by
  unfold checkAndKillGame
  split_ifs <;> simp

/-- The instance-count check never launches the client. -/
theorem launch_not_mem_count (s : MonitorState) (i : TickInput) :
    Action.launchClient ∉ (checkLeagueProcessCount s i).2 := by
  have h1 : Action.launchClient ∉ (countLogStep s i).2 := by
    unfold countLogStep
    split_ifs <;> simp
  have h2 : ∀ t, Action.launchClient ∉ (countTrigStep t i).2 := by
    intro t
    unfold countTrigStep
    split_ifs <;> simp
  have h3 : ∀ t, Action.launchClient ∉ (countResetStep t i).2 := by
    intro t
    unfold countResetStep
    split_ifs <;> simp
  simp [checkLeagueProcessCount, List.mem_append, h1, h2, h3]

/-- Within the cooldown the liveness check performs no launch and leaves the
state unchanged. -/
theorem restart_cooldown_block (s : MonitorState) (i : TickInput)
    (h : i.now - s.lastRestartTime < restartCooldown) :
    checkAndRestartClient s i = (s, []) ∨
      checkAndRestartClient s i = (s, [Action.logCooldownSkip]) := by
  unfold checkAndRestartClient
  split_ifs <;>
    first
      | exact Or.inl rfl
      | exact Or.inr rfl

/-- Within the cooldown the watchdog check performs no launch. -/
theorem vgc_cooldown_noLaunch (s : MonitorState) (i : TickInput)
    (h : i.now - s.lastRestartTime < restartCooldown) :
    Action.launchClient ∉ (checkVgcService s i).2 := by
  simp only [checkVgcService]
  split_ifs <;> simp [List.mem_append, launch_not_mem_fdk]

/-- C2: in every run of the monitor the successive relaunch times (starting
from the recorded last restart) are each at least one full 30 s cooldown
apart — so at most one client relaunch occurs within any cooldown window,
whichever trigger requested it — and a tick whose clock is still within the
cooldown of the recorded last relaunch performs no launch at all. -/
theorem restart_cooldown_claim :
    (∀ (s : MonitorState) (inputs : List TickInput),
        List.Chain' (fun a b => a + restartCooldown ≤ b)
          (s.lastRestartTime :: relaunchTimes s inputs)) ∧
    (∀ (s : MonitorState) (i : TickInput),
        s.lastRestartTime + restartCooldown ≤ i.now ∨
          Action.launchClient ∉ (monitorTick s i).2) := by
  constructor
  · intro s inputs
    induction inputs generalizing s with
    | nil => simp [relaunchTimes]
    | cons i rest ih =>
      simp only [relaunchTimes]
      by_cases h : ((monitorTick s i).1).lastRestartTime = s.lastRestartTime
      · rw [if_pos h]
        have hch := ih (monitorTick s i).1
        rw [h] at hch
        exact hch
      · rw [if_neg h]
        rcases tick_lrt s i with hL | ⟨hEq, hGe⟩
        · exact absurd hL h
        · rw [List.chain'_cons]
          refine ⟨hGe, ?_⟩
          have hch := ih (monitorTick s i).1
          rw [hEq] at hch
          exact hch
  · intro s i
    by_cases hc : s.lastRestartTime + restartCooldown ≤ i.now
    · exact Or.inl hc
    · refine Or.inr ?_
      have hcd : i.now - s.lastRestartTime < restartCooldown := by
        simp only [restartCooldown] at *
        omega
      have hrest := restart_cooldown_block s i hcd
      have hkill := launch_not_mem_killGame
      have hcount := launch_not_mem_count
      have hstate : (checkLeagueProcessCount (checkAndKillGame
          (checkAndRestartClient s i).1 i).1 i).1.lastRestartTime
            = (checkAndRestartClient s i).1.lastRestartTime := by
        rw [count_lrt, killGame_state]
      rcases hrest with hr | hr <;>
      · have hlr : (checkAndRestartClient s i).1 = s := by rw [hr]
        have hvgc := vgc_cooldown_noLaunch (checkLeagueProcessCount
          (checkAndKillGame (checkAndRestartClient s i).1 i).1 i).1 i
          (by rw [hstate, hlr]; exact hcd)
        rw [hlr] at hvgc
        simp only [monitorTick, List.mem_append]
        rw [hr]
        simp [hkill, hcount, hvgc]

/-- First sentinel detection with the cooldown elapsed: arm the flag, run
the kill steps, relaunch, wait, and fire the restart callback. -/
theorem vgc_first_detect_launch (s : MonitorState) (i : TickInput)
    (hflag : s.vgcRestartTriggered = false) (h185 : i.vgcExit185 = true)
    (hcd : s.lastRestartTime + restartCooldown ≤ i.now)
    (hok : i.launchOk = true) (hcb : i.restartCallbackSet = true) :
    checkVgcService s i =
      ({ s with vgcRestartTriggered := true, lastRestartTime := i.now },
       vgcFirstDetectKills i ++
         [Action.launchClient, Action.waitForClient, Action.fireRestart]) := by
  have hcd' : ¬ (i.now - s.lastRestartTime < restartCooldown) := by
    simp only [restartCooldown] at *
    omega
  simp only [checkVgcService]
  rw [if_pos h185, if_pos hflag, if_neg (by simpa using hcd'), if_pos hok,
    if_pos hcb]
  simp

/-- First sentinel detection within the cooldown: arm the flag, run the kill
steps, log the skip, and do not relaunch. -/
theorem vgc_first_detect_cooldown (s : MonitorState) (i : TickInput)
    (hflag : s.vgcRestartTriggered = false) (h185 : i.vgcExit185 = true)
    (hcd : i.now - s.lastRestartTime < restartCooldown) :
    checkVgcService s i =
      ({ s with vgcRestartTriggered := true },
       vgcFirstDetectKills i ++ [Action.logCooldownSkip]) := by
  simp only [checkVgcService]
  rw [if_pos h185, if_pos hflag, if_pos (by simpa using hcd)]

/-- A persisting sentinel with the flag armed and the 30 s log throttle
expired (or never logged) produces only the throttled log line. -/
theorem vgc_throttle_log (s : MonitorState) (i : TickInput)
    (hflag : s.vgcRestartTriggered = true) (h185 : i.vgcExit185 = true)
    (hlog : s.lastVgcCheckTime = 0 ∨ 30000 < i.now - s.lastVgcCheckTime) :
    checkVgcService s i =
      ({ s with lastVgcCheckTime := i.now }, [Action.logVgcStillDetected]) := by
  simp only [checkVgcService]
  rw [if_pos h185, if_neg (by simp [hflag]), if_pos hlog]

/-- A persisting sentinel with the flag armed inside the log-throttle window
produces nothing and changes nothing. -/
theorem vgc_throttle_silent (s : MonitorState) (i : TickInput)
    (hflag : s.vgcRestartTriggered = true) (h185 : i.vgcExit185 = true)
    (h1 : s.lastVgcCheckTime ≠ 0) (h2 : i.now - s.lastVgcCheckTime ≤ 30000) :
    checkVgcService s i = (s, []) := by
  simp only [checkVgcService]
  rw [if_pos h185, if_neg (by simp [hflag]), if_neg (by
    push_neg
    exact ⟨h1, by omega⟩)]

/-- A cleared sentinel with the flag armed disarms the flag. -/
theorem vgc_clear (s : MonitorState) (i : TickInput)
    (hflag : s.vgcRestartTriggered = true) (h185 : i.vgcExit185 = false) :
    checkVgcService s i = ({ s with vgcRestartTriggered := false }, []) := by
  simp only [checkVgcService]
  rw [if_neg (by simp [h185]), if_pos hflag]

/-- The watchdog kill steps never fire the restart callback. -/
theorem fireRestart_not_mem_fdk (i : TickInput) :
    Action.fireRestart ∉ vgcFirstDetectKills i := by
  unfold vgcFirstDetectKills
  split_ifs <;> simp

/-- While the sentinel persists with the flag armed, no later watchdog tick
launches the client or fires the restart callback, and the flag stays up. -/
theorem vgc_armed_persist_run (rest : List TickInput) : ∀ s : MonitorState,
    s.vgcRestartTriggered = true → (∀ j ∈ rest, j.vgcExit185 = true) →
    (runVgc s rest).1.vgcRestartTriggered = true ∧
    ∀ acts ∈ (runVgc s rest).2,
      Action.launchClient ∉ acts ∧ Action.fireRestart ∉ acts := by
  induction rest with
  | nil =>
    intro s hs _
    exact ⟨hs, by simp [runVgc]⟩
  | cons i rest ih =>
    intro s hs hall
    have h185 : i.vgcExit185 = true := hall i (by simp)
    have hall' : ∀ j ∈ rest, j.vgcExit185 = true := fun j hj => hall j (by simp [hj])
    by_cases hlog : s.lastVgcCheckTime = 0 ∨ 30000 < i.now - s.lastVgcCheckTime
    · have hstep := vgc_throttle_log s i hs h185 hlog
      have hrec := ih { s with lastVgcCheckTime := i.now } (by simpa using hs) hall'
      simp only [runVgc, hstep]
      refine ⟨hrec.1, ?_⟩
      intro acts hacts
      rcases List.mem_cons.mp hacts with h | h
      · subst h
        simp
      · exact hrec.2 acts h
    · push_neg at hlog
      have hstep := vgc_throttle_silent s i hs h185 hlog.1 (by omega)
      have hrec := ih s hs hall'
      simp only [runVgc, hstep]
      refine ⟨hrec.1, ?_⟩
      intro acts hacts
      rcases List.mem_cons.mp hacts with h | h
      · subst h
        simp
      · exact hrec.2 acts h

/-- C10: when the sentinel is first detected inside the restart cooldown,
the flag is armed and the kill steps run, but no relaunch happens on that
tick; and as long as the sentinel persists no later tick relaunches or
invokes the watchdog-restart trigger — the blocked restart is dropped for
that arming, not deferred. -/
theorem vgc_cooldown_dropped_claim (s : MonitorState) (i : TickInput)
    (rest : List TickInput)
    (hflag : s.vgcRestartTriggered = false) (h185 : i.vgcExit185 = true)
    (hcd : i.now - s.lastRestartTime < restartCooldown)
    (hrest : ∀ j ∈ rest, j.vgcExit185 = true) :
    (checkVgcService s i).1.vgcRestartTriggered = true ∧
    (checkVgcService s i).1.lastRestartTime = s.lastRestartTime ∧
    (checkVgcService s i).2 = vgcFirstDetectKills i ++ [Action.logCooldownSkip] ∧
    Action.launchClient ∉ (checkVgcService s i).2 ∧
    Action.fireRestart ∉ (checkVgcService s i).2 ∧
    (∀ acts ∈ (runVgc (checkVgcService s i).1 rest).2,
        Action.launchClient ∉ acts ∧ Action.fireRestart ∉ acts) := by
  have hstep := vgc_first_detect_cooldown s i hflag h185 hcd
  rw [hstep]
  refine ⟨rfl, rfl, rfl, ?_, ?_, ?_⟩
  · simp [List.mem_append, launch_not_mem_fdk]
  · simp [List.mem_append, fireRestart_not_mem_fdk]
  · exact (vgc_armed_persist_run rest _ rfl hrest).2

/-- Witness for C10 at a concrete state and tick environments. -/
theorem vgc_cooldown_dropped_witness :
    (checkVgcService initialMonitorState (mkVgcInput 100 true)).1.vgcRestartTriggered
        = true ∧
    (checkVgcService initialMonitorState
        (mkVgcInput 100 true)).1.lastRestartTime
        = initialMonitorState.lastRestartTime ∧
    (checkVgcService initialMonitorState (mkVgcInput 100 true)).2
        = vgcFirstDetectKills (mkVgcInput 100 true) ++ [Action.logCooldownSkip] ∧
    Action.launchClient
        ∉ (checkVgcService initialMonitorState (mkVgcInput 100 true)).2 ∧
    Action.fireRestart
        ∉ (checkVgcService initialMonitorState (mkVgcInput 100 true)).2 ∧
    (∀ acts ∈ (runVgc (checkVgcService initialMonitorState (mkVgcInput 100 true)).1
        [mkVgcInput 5100 true]).2,
        Action.launchClient ∉ acts ∧ Action.fireRestart ∉ acts) :=
  vgc_cooldown_dropped_claim initialMonitorState (mkVgcInput 100 true)
    [mkVgcInput 5100 true] rfl rfl (by decide) (by decide)

/-- C4: with the sentinel observed on ticks 1-5 and absent on tick 6,
exactly one restart sequence runs, at tick 1; ticks 2-5 produce at most the
single throttled log line (here: exactly one, at tick 2, the five ticks
lying within one 30 s window); the armed flag holds through tick 5, clears
at tick 6, and a re-detection at tick 7 (cooldown elapsed) runs the full
sequence again. -/
theorem watchdog_sentinel_sequence_claim
    (s0 : MonitorState) (t1 t2 t3 t4 t5 t6 t7 : Nat)
    (hflag : s0.vgcRestartTriggered = false)
    (hvc : s0.lastVgcCheckTime = 0)
    (hcd1 : s0.lastRestartTime + restartCooldown ≤ t1)
    (h12 : t1 ≤ t2) (h23 : t2 ≤ t3) (h34 : t3 ≤ t4) (h45 : t4 ≤ t5)
    (hlog : t5 ≤ t2 + 30000)
    (hcd7 : t1 + restartCooldown ≤ t7) :
    runVgc s0 [mkVgcInput t1 true, mkVgcInput t2 true, mkVgcInput t3 true,
        mkVgcInput t4 true, mkVgcInput t5 true, mkVgcInput t6 false,
        mkVgcInput t7 true] =
      ({ s0 with
          vgcRestartTriggered := true, lastRestartTime := t7,
          lastVgcCheckTime := t2 },
       [vgcRestartSequence, [Action.logVgcStillDetected], [], [], [], [],
        vgcRestartSequence]) ∧
    (runVgc s0 [mkVgcInput t1 true, mkVgcInput t2 true, mkVgcInput t3 true,
        mkVgcInput t4 true, mkVgcInput t5 true]).1.vgcRestartTriggered = true ∧
    (runVgc s0 [mkVgcInput t1 true, mkVgcInput t2 true, mkVgcInput t3 true,
        mkVgcInput t4 true, mkVgcInput t5 true,
        mkVgcInput t6 false]).1.vgcRestartTriggered = false := by
  have ht2 : t2 ≠ 0 := by
    simp only [restartCooldown] at hcd1
    omega
  have e1 := vgc_first_detect_launch s0 (mkVgcInput t1 true) hflag rfl hcd1 rfl rfl
  have st1 : (checkVgcService s0 (mkVgcInput t1 true)).1
      = { s0 with vgcRestartTriggered := true, lastRestartTime := t1 } := by
    rw [e1]
    simp [mkVgcInput]
  have ac1 : (checkVgcService s0 (mkVgcInput t1 true)).2 = vgcRestartSequence := by
    rw [e1]
    simp [vgcFirstDetectKills, mkVgcInput, vgcRestartSequence]
  have e2 := vgc_throttle_log
    { s0 with vgcRestartTriggered := true, lastRestartTime := t1 }
    (mkVgcInput t2 true) rfl rfl (Or.inl hvc)
  have st2 : (checkVgcService
      { s0 with vgcRestartTriggered := true, lastRestartTime := t1 }
      (mkVgcInput t2 true)).1
      = { s0 with
          vgcRestartTriggered := true, lastRestartTime := t1,
          lastVgcCheckTime := t2 } := by
    rw [e2]
    simp [mkVgcInput]
  have ac2 : (checkVgcService
      { s0 with vgcRestartTriggered := true, lastRestartTime := t1 }
      (mkVgcInput t2 true)).2 = [Action.logVgcStillDetected] := by
    rw [e2]
  have e3 := vgc_throttle_silent
    { s0 with
      vgcRestartTriggered := true, lastRestartTime := t1,
      lastVgcCheckTime := t2 }
    (mkVgcInput t3 true) rfl rfl ht2 (by show t3 - t2 ≤ 30000; omega)
  have e4 := vgc_throttle_silent
    { s0 with
      vgcRestartTriggered := true, lastRestartTime := t1,
      lastVgcCheckTime := t2 }
    (mkVgcInput t4 true) rfl rfl ht2 (by show t4 - t2 ≤ 30000; omega)
  have e5 := vgc_throttle_silent
    { s0 with
      vgcRestartTriggered := true, lastRestartTime := t1,
      lastVgcCheckTime := t2 }
    (mkVgcInput t5 true) rfl rfl ht2 (by show t5 - t2 ≤ 30000; omega)
  have e6 := vgc_clear
    { s0 with
      vgcRestartTriggered := true, lastRestartTime := t1,
      lastVgcCheckTime := t2 }
    (mkVgcInput t6 false) rfl rfl
  have st6 : (checkVgcService
      { s0 with
        vgcRestartTriggered := true, lastRestartTime := t1,
        lastVgcCheckTime := t2 } (mkVgcInput t6 false)).1
      = { s0 with
          lastRestartTime := t1, lastVgcCheckTime := t2,
          vgcRestartTriggered := false } := by
    rw [e6]
  have e7 := vgc_first_detect_launch
    { s0 with
      lastRestartTime := t1, lastVgcCheckTime := t2,
      vgcRestartTriggered := false }
    (mkVgcInput t7 true) rfl rfl hcd7 rfl rfl
  have st7 : (checkVgcService
      { s0 with
        lastRestartTime := t1, lastVgcCheckTime := t2,
        vgcRestartTriggered := false } (mkVgcInput t7 true)).1
      = { s0 with
          vgcRestartTriggered := true, lastRestartTime := t7,
          lastVgcCheckTime := t2 } := by
    rw [e7]
    simp [mkVgcInput]
  have ac7 : (checkVgcService
      { s0 with
        lastRestartTime := t1, lastVgcCheckTime := t2,
        vgcRestartTriggered := false } (mkVgcInput t7 true)).2
      = vgcRestartSequence := by
    rw [e7]
    simp [vgcFirstDetectKills, mkVgcInput, vgcRestartSequence]
  refine ⟨?_, ?_, ?_⟩
  · simp only [runVgc, st1, ac1, st2, ac2, e3, e5, e4, st6, e6, st7, ac7]
  · simp only [runVgc, st1, ac1, st2, ac2, e3, e5, e4]
  · simp only [runVgc, st1, ac1, st2, ac2, e3, e5, e4, st6, e6]

/-- An envelope built with an empty payload carries `type`, `timestamp`,
`role`, and `sessionToken` exactly when the token is non-empty. -/
theorem buildMessage_empty_fields (ts : Nat) (role : Role) (tok : String)
    (type : String) :
    envelopeFieldsOk type ts role tok (buildMessage ts role tok type []) := by
  by_cases h : tok = ""
  · subst h
    simp [envelopeFieldsOk, buildMessage, jupdate, jset, jget, List.find?]
  · simp [envelopeFieldsOk, buildMessage, jupdate, jset, jget, List.find?, h]

/-- C8: every envelope the client constructs (CREATE_SESSION, JOIN with and
without a token, STATUS_UPDATE, STATUS_REQUEST) carries its type string, a
timestamp and the sender role, plus the session token exactly when a
non-empty token is known; and encoding any envelope and decoding it back
preserves every field, including the absent-versus-present distinction of
the session token. -/
theorem envelope_fields_roundtrip_claim :
    (∀ (ts : Nat) (role : Role) (tok : String),
        envelopeFieldsOk "CREATE_SESSION" ts role tok
          (buildMessage ts role tok "CREATE_SESSION" [])) ∧
    (∀ (ts : Nat) (role : Role) (token curTok : String),
        envelopeFieldsOk "JOIN" ts role (joinSessionMsg ts role token curTok).1
          (joinSessionMsg ts role token curTok).2) ∧
    (∀ (ts : Nat) (role : Role) (tok : String) (b : Bool) (n : Nat),
        envelopeFieldsOk "STATUS_UPDATE" ts role tok
          (buildMessage ts role tok "STATUS_UPDATE"
            [("clientRunning", JVal.bool b), ("processCount", JVal.num n)])) ∧
    (∀ (ts : Nat) (role : Role) (tok : String),
        envelopeFieldsOk "STATUS_REQUEST" ts role tok
          (buildMessage ts role tok "STATUS_REQUEST" [])) ∧
    (∀ e : Envelope, e.sessionToken ≠ some "" →
        decodeEnv (encodeEnv e) = some e) := by
  refine ⟨?_, ?_, ?_, ?_, ?_⟩
  · intro ts role tok
    exact buildMessage_empty_fields ts role tok "CREATE_SESSION"
  · intro ts role token curTok
    by_cases h : token = ""
    · simp only [joinSessionMsg, h, if_pos]
      exact buildMessage_empty_fields ts role curTok "JOIN"
    · simp only [joinSessionMsg, h, if_neg, if_false]
      simp [envelopeFieldsOk, buildMessage, jupdate, jset, jget, List.find?, h]
  · intro ts role tok b n
    by_cases h : tok = ""
    · subst h
      simp [envelopeFieldsOk, buildMessage, jupdate, jset, jget, List.find?]
    · simp [envelopeFieldsOk, buildMessage, jupdate, jset, jget, List.find?, h]
  · intro ts role tok
    exact buildMessage_empty_fields ts role tok "STATUS_REQUEST"
  · intro e hne
    obtain ⟨ty, ts, stok, r, cr, pc⟩ := e
    cases stok with
    | none =>
      cases cr <;> cases pc <;> cases r <;>
        simp [encodeEnv, buildMessage, payloadJson, jupdate, jset, jget,
          List.find?, decodeEnv, decodeRole, roleString]
    | some t =>
      have ht : t ≠ "" := by simpa using hne
      cases cr <;> cases pc <;> cases r <;>
        simp [encodeEnv, buildMessage, payloadJson, jupdate, jset, jget,
          List.find?, decodeEnv, decodeRole, roleString, ht]

/-- Witness for C8: round trip of a concrete STATUS_UPDATE envelope with a
present session token. -/
theorem envelope_fields_roundtrip_witness :
    decodeEnv (encodeEnv
      { type := "STATUS_UPDATE", timestamp := 77, sessionToken := some "abc",
        role := Role.follower, clientRunning := some true,
        processCount := some 12 }) =
    some { type := "STATUS_UPDATE", timestamp := 77,
           sessionToken := some "abc", role := Role.follower,
           clientRunning := some true, processCount := some 12 } :=
  envelope_fields_roundtrip_claim.2.2.2.2
    { type := "STATUS_UPDATE", timestamp := 77, sessionToken := some "abc",
      role := Role.follower, clientRunning := some true,
      processCount := some 12 } (by decide)

/-- Witness for C4 at a concrete initial state and concrete tick clocks. -/
theorem watchdog_sentinel_sequence_witness :
    runVgc initialMonitorState [mkVgcInput 30000 true, mkVgcInput 35000 true,
        mkVgcInput 40000 true, mkVgcInput 45000 true, mkVgcInput 50000 true,
        mkVgcInput 55000 false, mkVgcInput 60000 true] =
      ({ initialMonitorState with
          vgcRestartTriggered := true, lastRestartTime := 60000,
          lastVgcCheckTime := 35000 },
       [vgcRestartSequence, [Action.logVgcStillDetected], [], [], [], [],
        vgcRestartSequence]) ∧
    (runVgc initialMonitorState [mkVgcInput 30000 true, mkVgcInput 35000 true,
        mkVgcInput 40000 true, mkVgcInput 45000 true,
        mkVgcInput 50000 true]).1.vgcRestartTriggered = true ∧
    (runVgc initialMonitorState [mkVgcInput 30000 true, mkVgcInput 35000 true,
        mkVgcInput 40000 true, mkVgcInput 45000 true, mkVgcInput 50000 true,
        mkVgcInput 55000 false]).1.vgcRestartTriggered = false :=
  watchdog_sentinel_sequence_claim initialMonitorState 30000 35000 40000 45000
    50000 55000 60000 rfl rfl (by decide) (by decide) (by decide) (by decide)
    (by decide) (by decide) (by decide)

end LeagueMonitor
